import Mathlib

/-!
Shallow embedding of `src/app.py` (PDF OCR with a local vision LLM,
a Streamlit single-page app).

The script runs top to bottom on every rerun.  We embed its session
state (`st.session_state`) as a `Session` record and each action block
as an explicit step function.  External libraries (pdf2image
`convert_from_path`, mlx_vlm `load` and `generate`) are opaque
collaborators: their outcome on a given invocation is passed to the
step function as an `Except String _` argument, mirroring the
try/except structure of the source.  Page images and model handles are
opaque and represented by `Nat` identifiers.
-/

/-- Session state of `app.py` (lines 84-89 initialise the model
fields; `current_image`, `page_num` and `output_text` are only added by
the upload and extract blocks, hence `Option`). -/
structure Session where
  model : Option Nat
  processor : Option Nat
  config : Option Nat
  model_loaded : Bool
  model_name : Option String
  current_image : Option Nat
  page_num : Option Nat
  output_text : Option String
deriving Repr, DecidableEq

/-- The freshly initialised session (lines 85-89). -/
def initSession : Session :=
  { model := none, processor := none, config := none,
    model_loaded := false, model_name := none,
    current_image := none, page_num := none, output_text := none }

/-- Options of the page selectbox for an `n`-page document:
`range(1, n + 1)` in the source (line 131), i.e. `[1, ..., n]`. -/
def pageOptions (n : Nat) : List Nat := List.range' 1 n

/-- The upload block, lines 114-150.  A temporary file is written, the
PDF is rasterised (outcome `conv`), on success the selected page
(`sel` when the document has more than one page, page 1 otherwise) is
stored as `current_image` together with its number; on failure the
session is untouched.  The `finally` clause (lines 147-150) deletes
the temporary file on both paths; the `Bool` component records that
deletion.  The final component is the error message shown, if any. -/
def uploadSection (s : Session) (conv : Except String (List Nat)) (sel : Nat) :
    Session × Bool × Option String :=
  match conv with
  | .error e => (s, true, some e)
  | .ok images =>
      let page := if images.length > 1 then sel else 1
      ({ s with current_image := images.get? (page - 1), page_num := some page },
       true, none)

/-- Whether the "Load Model" button is rendered (line 157): an image
must be present (line 155) and either no model is loaded or the loaded
name differs from the selected one. -/
def loadButtonOffered (s : Session) (selected : String) : Bool :=
  s.current_image.isSome && (!s.model_loaded || s.model_name != some selected)

/-- The body of the "Load Model" click (lines 158-172):
`load_vision_model` returns either an error string (shown, session
untouched) or a handle/processor/config triple, which is recorded
together with the selected identifier and the loaded flag. -/
def loadModelClick (s : Session) (selected : String)
    (res : Except String (Nat × Nat × Nat)) : Session × Option String :=
  match res with
  | .error e => (s, some e)
  | .ok (m, p, c) =>
      ({ s with model := some m, processor := some p, config := some c,
                model_loaded := true, model_name := some selected }, none)

/-- One rerun through the model-loading block (lines 155-172): the
load is performed only when the button is rendered and clicked.  The
`Bool` component records whether `load_vision_model` was invoked. -/
def loadSection (s : Session) (selected : String) (clicked : Bool)
    (res : Except String (Nat × Nat × Nat)) : Session × Bool × Option String :=
  if loadButtonOffered s selected && clicked then
    let r := loadModelClick s selected res
    (r.1, true, r.2)
  else (s, false, none)

/-- Whether the "Extract Text" button is rendered: an image is present
(line 155) and a model is loaded (line 175).  The source does not
compare the loaded name with the currently selected one here. -/
def extractButtonOffered (s : Session) : Bool :=
  s.current_image.isSome && s.model_loaded

/-- Whether the "Model ready" banner (line 176) is shown. -/
def readyShown (s : Session) : Bool :=
  s.current_image.isSome && s.model_loaded

/-- Whether the info message asking the user to load a model first
(lines 237-238) is shown instead of the extraction controls. -/
def loadPromptShown (s : Session) : Bool :=
  s.current_image.isSome && !s.model_loaded

/-- One rerun through the extraction block (lines 175-211): the chat
template is applied and `generate` is called only when the button is
rendered and clicked; `gen` is the outcome of that underlying call.
On success the produced text replaces `output_text` (line 207); on any
exception the session is untouched and the message is shown
(lines 209-211).  The `Bool` component records whether the generation
call was reached. -/
def extractSection (s : Session) (clicked : Bool)
    (gen : Except String String) : Session × Bool × Option String :=
  if extractButtonOffered s && clicked then
    match gen with
    | .error e => (s, true, some e)
    | .ok text => ({ s with output_text := some text }, true, none)
  else (s, false, none)

/-- Whether the results block (lines 213-236) is rendered: it sits
inside the image and model guards, and line 214 additionally requires
`output_text` to be present and truthy (a non-empty string). -/
def resultsShown (s : Session) : Bool :=
  s.current_image.isSome && s.model_loaded &&
    (match s.output_text with
     | some t => !t.isEmpty
     | none => false)

/-- The page number shown in the results header (line 215): the
current page of the session, whenever the results block is rendered
at all. -/
def resultHeaderPage (s : Session) : Option Nat :=
  if resultsShown s then s.page_num else none

/-- The widget the stored text is displayed in, depending on the
"Render as Markdown" toggle (lines 218-228). -/
inductive Display where
  | markdown (content : String)
  | textArea (content : String)
deriving Repr, DecidableEq

/-- The string carried by a display widget. -/
def Display.content : Display → String
  | .markdown t => t
  | .textArea t => t

/-- Lines 220-228: the toggle chooses the widget; both receive the
stored text unchanged. -/
def renderResult (t : String) (render_markdown : Bool) : Display :=
  if render_markdown then .markdown t else .textArea t

/-- The file served by the download button (lines 231-236). -/
structure DownloadArtifact where
  data : String
  file_name : String
  mime : String
deriving Repr, DecidableEq

/-- The download button, rendered only inside the results block: it
serves the stored text verbatim under the name `ocr_page_<N>.txt` with
mime `text/plain`, where `N` is the current page number of the
session (lines 231-236). -/
def downloadArtifact (s : Session) : Option DownloadArtifact :=
  if resultsShown s then
    match s.output_text, s.page_num with
    | some t, some n =>
        some ⟨t, "ocr_page_" ++ toString n ++ ".txt", "text/plain"⟩
    | _, _ => none
  else none

/-- A concrete reachable session used in several witnesses and
counterexamples: a three-page document was uploaded with page 2
selected. -/
def sessionUploaded : Session :=
  (uploadSection initSession (.ok [10, 20, 30]) 2).1

/-- The session `sessionUploaded` after the model identifier "A" was
loaded successfully. -/
def sessionLoadedA : Session :=
  (loadSection sessionUploaded "A" true (.ok (1, 2, 3))).1

/-- The session `sessionLoadedA` after a successful extraction that
produced the text "hello" on page 2. -/
def sessionExtracted : Session :=
  (extractSection sessionLoadedA true (.ok "hello")).1

/-- C1, counterexample: in the reachable session that loaded model "A"
(`sessionLoadedA`), with the selector now showing "B", the session is
still flagged ready (`model_loaded` stays true — the session state does
not depend on the selector, so no transition to not-ready occurs), and
the Extract Text button is still offered even though the loaded name
"A" does not match the selected "B"; the Load Model button is merely
offered in addition.  This refutes the claim that extraction may only
run when the loaded handle matches the selected identifier and that
changing the selection while ready makes the session not-ready. -/
theorem C1_counterexample :
    sessionLoadedA.model_loaded = true ∧
    sessionLoadedA.model_name = some "A" ∧
    sessionLoadedA.model_name ≠ some "B" ∧
    extractButtonOffered sessionLoadedA = true ∧
    loadButtonOffered sessionLoadedA "B" = true := by decide

/-- C1, amended: at most one model handle is stored per session — a
successful load replaces the handle, processor and config and records
the newly selected identifier as the loaded one.  However, when the
selected identifier differs from the loaded one while a model is
loaded, the session stays ready: the Load Model button is offered
again, and the Extract Text button remains offered as well, so an
extraction may run with a handle that does not match the current
selection. -/
theorem C1_amended_model_handle (s : Session) (sel sel2 : String) (m p c : Nat)
    (himg : s.current_image.isSome = true) :
    ((loadModelClick s sel (.ok (m, p, c))).1.model = some m ∧
     (loadModelClick s sel (.ok (m, p, c))).1.processor = some p ∧
     (loadModelClick s sel (.ok (m, p, c))).1.config = some c ∧
     (loadModelClick s sel (.ok (m, p, c))).1.model_name = some sel ∧
     (loadModelClick s sel (.ok (m, p, c))).1.model_loaded = true) ∧
    (s.model_loaded = true → s.model_name ≠ some sel2 →
      loadButtonOffered s sel2 = true ∧ extractButtonOffered s = true) := by
  refine ⟨⟨rfl, rfl, rfl, rfl, rfl⟩, ?_⟩
  intro h1 h2
  simp [loadButtonOffered, extractButtonOffered, himg, h1, h2]

/-- Witness for C1 amended: instantiated at `sessionLoadedA` with the
selector on "B". -/
theorem C1_amended_witness :
    loadButtonOffered sessionLoadedA "B" = true ∧
    extractButtonOffered sessionLoadedA = true :=
  (C1_amended_model_handle sessionLoadedA "X" "B" 7 8 9 (by decide)).2
    (by decide) (by decide)

/-- C2, counterexample: after extracting "hello" on page 2
(`sessionExtracted`), changing the page selection to 3 leaves the
stored result in place: the new session still holds
`output_text = some "hello"` and the results block is still rendered
(now labelled with page 3), contradicting the claim that a page change
discards the result until a new extraction runs. -/
theorem C2_counterexample :
    resultsShown sessionExtracted = true ∧
    sessionExtracted.page_num = some 2 ∧
    (uploadSection sessionExtracted (.ok [10, 20, 30]) 3).1.page_num = some 3 ∧
    (uploadSection sessionExtracted (.ok [10, 20, 30]) 3).1.output_text
      = some "hello" ∧
    resultsShown (uploadSection sessionExtracted (.ok [10, 20, 30]) 3).1
      = true := by decide

/-- C2, amended: changing the page selection never modifies the stored
extraction result; while the re-converted document still yields a page
image, the results block remains rendered and its header is relabelled
with the new current page number, until a new extraction replaces the
result. -/
theorem C2_page_change_keeps_result (s : Session) (images : List Nat) (k : Nat)
    (hres : resultsShown s = true) :
    (uploadSection s (.ok images) k).1.output_text = s.output_text ∧
    (uploadSection s (.ok images) k).1.model_loaded = s.model_loaded ∧
    ((uploadSection s (.ok images) k).1.current_image.isSome = true →
      resultsShown (uploadSection s (.ok images) k).1 = true ∧
      resultHeaderPage (uploadSection s (.ok images) k).1 =
        (uploadSection s (.ok images) k).1.page_num) := by
  refine ⟨rfl, rfl, ?_⟩
  intro himg
  simp only [resultsShown, Bool.and_eq_true] at hres
  have hshown : resultsShown (uploadSection s (.ok images) k).1 = true := by
    simp only [resultsShown, Bool.and_eq_true]
    exact ⟨⟨himg, hres.1.2⟩, hres.2⟩
  exact ⟨hshown, by simp [resultHeaderPage, hshown]⟩

/-- Witness for C2 amended: instantiated at `sessionExtracted` with a
page change to page 3. -/
theorem C2_amended_witness :
    resultsShown (uploadSection sessionExtracted (.ok [10, 20, 30]) 3).1
      = true ∧
    resultHeaderPage (uploadSection sessionExtracted (.ok [10, 20, 30]) 3).1 =
      (uploadSection sessionExtracted (.ok [10, 20, 30]) 3).1.page_num :=
  (C2_page_change_keeps_result sessionExtracted [10, 20, 30] 3
    (by decide)).2.2 (by decide)

/-- C3, counterexample: starting from the reachable session that
already loaded model "A", a failing load of "B" surfaces the message
but leaves the session fully loaded with the previous handle: after
the failure `model_loaded` is still true and the old handle is still
stored.  This refutes the claim that after every failing load the
session is left in the not-loaded state. -/
theorem C3_counterexample :
    sessionLoadedA.model_loaded = true ∧
    (loadModelClick sessionLoadedA "B" (.error "model not found")).2
      = some "model not found" ∧
    (loadModelClick sessionLoadedA "B" (.error "model not found")).1.model_loaded
      = true ∧
    (loadModelClick sessionLoadedA "B" (.error "model not found")).1.model
      = some 1 := by decide

/-- C3, amended: a failing load surfaces the underlying message and
modifies no session field at all.  Consequently a session that had
never loaded a model stays not-loaded with no partial state, while a
session that was previously ready simply keeps its previous loaded
model (the previous ready state persists rather than being restored or
cleared). -/
theorem C3_load_failure_state_unchanged (s : Session) (sel e : String)
    (clicked : Bool) :
    loadModelClick s sel (.error e) = (s, some e) ∧
    (loadSection s sel clicked (.error e)).1 = s := by
  refine ⟨rfl, ?_⟩
  unfold loadSection
  split <;> rfl

/-- C4: loading is idempotent in the identifier.  After a rerun whose
load of `sel` went through (or was already unnecessary), a second rerun
with the same identifier performs no load work at all: the button
guard fails, `load_vision_model` is not invoked, the session is
unchanged, and the ready banner is shown instead. -/
theorem C4_load_idempotent (s : Session) (sel : String) (m p c : Nat)
    (res2 : Except String (Nat × Nat × Nat))
    (himg : s.current_image.isSome = true) :
    loadSection (loadSection s sel true (.ok (m, p, c))).1 sel true res2 =
      ((loadSection s sel true (.ok (m, p, c))).1, false, none) ∧
    readyShown (loadSection s sel true (.ok (m, p, c))).1 = true := by
  by_cases lb : loadButtonOffered s sel = true
  · have h1 : loadSection s sel true (.ok (m, p, c)) =
        ({ s with model := some m, processor := some p, config := some c,
                  model_loaded := true, model_name := some sel }, true, none) := by
      simp [loadSection, lb, loadModelClick]
    rw [h1]
    have hb : loadButtonOffered
        ({ s with model := some m, processor := some p, config := some c,
                  model_loaded := true, model_name := some sel }) sel = false := by
      simp [loadButtonOffered]
    constructor
    · simp [loadSection, hb]
    · simp [readyShown, himg]
  · simp only [Bool.not_eq_true] at lb
    have h2 : s.model_loaded = true ∧ s.model_name = some sel := by
      simp [loadButtonOffered, himg] at lb
      exact lb
    simp [loadSection, lb, readyShown, himg, h2.1]

/-- Witness for C4: instantiated at the uploaded session with model
"A" loaded first. -/
theorem C4_witness :
    loadSection (loadSection sessionUploaded "A" true (.ok (1, 2, 3))).1
        "A" true (.ok (4, 5, 6)) =
      ((loadSection sessionUploaded "A" true (.ok (1, 2, 3))).1, false, none) ∧
    readyShown (loadSection sessionUploaded "A" true (.ok (1, 2, 3))).1
      = true :=
  C4_load_idempotent sessionUploaded "A" 1 2 3 (.ok (4, 5, 6)) (by decide)

/-- C5: every failing action is caught in place, reports the
underlying message, and leaves the whole session unchanged — a failing
conversion keeps the prior current image and page number, a failing
load keeps all model state, and a failing extraction keeps the
previously stored result. -/
theorem C5_error_isolation (s : Session) (e : String) (sel : Nat)
    (selm : String) (clicked : Bool)
    (hext : extractButtonOffered s = true) :
    uploadSection s (.error e) sel = (s, true, some e) ∧
    (loadSection s selm clicked (.error e)).1 = s ∧
    extractSection s true (.error e) = (s, true, some e) ∧
    (loadButtonOffered s selm = true →
      loadSection s selm true (.error e) = (s, true, some e)) := by
  refine ⟨rfl, ?_, ?_, ?_⟩
  · unfold loadSection; split <;> rfl
  · simp [extractSection, hext]
  · intro hb; simp [loadSection, hb, loadModelClick]

/-- Witness for C5: instantiated at `sessionLoadedA`, where an
extraction is possible and a load of "B" is offered. -/
theorem C5_witness :
    uploadSection sessionLoadedA (.error "boom") 1
      = (sessionLoadedA, true, some "boom") ∧
    (loadSection sessionLoadedA "B" true (.error "boom")).1 = sessionLoadedA ∧
    extractSection sessionLoadedA true (.error "boom")
      = (sessionLoadedA, true, some "boom") ∧
    (loadButtonOffered sessionLoadedA "B" = true →
      loadSection sessionLoadedA "B" true (.error "boom")
        = (sessionLoadedA, true, some "boom")) :=
  C5_error_isolation sessionLoadedA "boom" 1 "B" true (by decide)

/-- C6: for a document of N pages the page selector offers exactly the
numbers 1..N; selecting page k stores exactly the k-th page image
(1-indexed) and the number k, and that image exists; for a single-page
document no selector is consulted, page 1 is the default and its image
is stored. -/
theorem C6_page_selection (s : Session) (images : List Nat) (k : Nat) :
    (∀ m, m ∈ pageOptions images.length ↔ 1 ≤ m ∧ m ≤ images.length) ∧
    (1 < images.length → 1 ≤ k → k ≤ images.length →
      (uploadSection s (.ok images) k).1.page_num = some k ∧
      (uploadSection s (.ok images) k).1.current_image = images.get? (k - 1) ∧
      (images.get? (k - 1)).isSome = true) ∧
    (images.length = 1 →
      (uploadSection s (.ok images) k).1.page_num = some 1 ∧
      (uploadSection s (.ok images) k).1.current_image = images.get? 0 ∧
      (images.get? 0).isSome = true) := by
  refine ⟨?_, ?_, ?_⟩
  · intro m
    simp [pageOptions, List.mem_range'_1]
    omega
  · intro h1 hk1 hk2
    have hlt : k - 1 < images.length := by omega
    refine ⟨?_, ?_, ?_⟩
    · simp [uploadSection, h1]
    · simp [uploadSection, h1]
    · simp [List.get?_eq_getElem?, List.getElem?_eq_getElem hlt]
  · intro h1
    have hn : ¬ images.length > 1 := by omega
    have hlt : 0 < images.length := by omega
    refine ⟨?_, ?_, ?_⟩
    · simp [uploadSection, hn]
    · simp [uploadSection, hn]
    · simp [List.get?_eq_getElem?, List.getElem?_eq_getElem hlt]

/-- Witness for C6: a three-page document with page 2 selected. -/
theorem C6_witness :
    (uploadSection initSession (.ok [10, 20, 30]) 2).1.page_num = some 2 ∧
    (uploadSection initSession (.ok [10, 20, 30]) 2).1.current_image
      = [10, 20, 30].get? 1 ∧
    ([10, 20, 30].get? 1).isSome = true :=
  (C6_page_selection initSession [10, 20, 30] 2).2.1
    (by decide) (by decide) (by decide)

/-- C7: when no model is loaded, an extract request can never reach
the generation call — the extraction block performs nothing and leaves
the session unchanged regardless of clicks, and (when a page image is
present) the interface instead surfaces the precondition failure by
prompting the user to load a model first. -/
theorem C7_no_generation_without_model (s : Session) (clicked : Bool)
    (gen : Except String String) (h : s.model_loaded = false) :
    extractSection s clicked gen = (s, false, none) ∧
    (s.current_image.isSome = true → loadPromptShown s = true) := by
  constructor
  · simp [extractSection, extractButtonOffered, h]
  · intro himg; simp [loadPromptShown, himg, h]

/-- Witness for C7: the uploaded session before any model load. -/
theorem C7_witness :
    extractSection sessionUploaded true (.ok "text")
      = (sessionUploaded, false, none) ∧
    (sessionUploaded.current_image.isSome = true →
      loadPromptShown sessionUploaded = true) :=
  C7_no_generation_without_model sessionUploaded true (.ok "text") (by decide)

/-- C8: the temporary file holding the uploaded PDF is deleted after
every conversion attempt, whether the conversion succeeds or fails. -/
theorem C8_temp_file_deleted (s : Session) (conv : Except String (List Nat))
    (sel : Nat) :
    (uploadSection s conv sel).2.1 = true := by
  cases conv <;> rfl

/-- C9: both display modes carry the stored text unchanged — the
markdown widget and the plain-text widget receive the identical
string — and the download button serves exactly the stored text as a
`text/plain` file named `ocr_page_<N>.txt`, where `N` is the current
page number of the session. -/
theorem C9_display_and_download (s : Session) (t : String) (n : Nat) (b : Bool)
    (h1 : s.output_text = some t) (h2 : s.page_num = some n)
    (h3 : resultsShown s = true) :
    (renderResult t b).content = t ∧
    downloadArtifact s =
      some ⟨t, "ocr_page_" ++ toString n ++ ".txt", "text/plain"⟩ := by
  constructor
  · cases b <;> rfl
  · simp [downloadArtifact, h1, h2, h3]

/-- Witness for C9: the session after extracting "hello" on page 2. -/
theorem C9_witness :
    (renderResult "hello" true).content = "hello" ∧
    downloadArtifact sessionExtracted =
      some ⟨"hello", "ocr_page_" ++ toString 2 ++ ".txt", "text/plain"⟩ :=
  C9_display_and_download sessionExtracted "hello" 2 true
    (by decide) (by decide) (by decide)

/-- C10: a successful extraction producing the empty string is stored
in the session but neither the results section nor the download button
is offered, because the display is guarded by truthiness of the stored
text; every non-empty stored result keeps the section and the download
offered, and the stored result survives page changes and failed
extractions, so it remains available until replaced. -/
theorem C10_result_visibility (s : Session) :
    (extractButtonOffered s = true →
      (extractSection s true (.ok "")).1.output_text = some "" ∧
      resultsShown (extractSection s true (.ok "")).1 = false ∧
      downloadArtifact (extractSection s true (.ok "")).1 = none) ∧
    (∀ t, s.output_text = some t → t ≠ "" →
      s.current_image.isSome = true → s.model_loaded = true →
      s.page_num.isSome = true →
      resultsShown s = true ∧ (downloadArtifact s).isSome = true) ∧
    (∀ conv sel, (uploadSection s conv sel).1.output_text = s.output_text) ∧
    (∀ e (c : Bool),
      (extractSection s c (.error e)).1.output_text = s.output_text) := by
  refine ⟨?_, ?_, ?_, ?_⟩
  · intro hb
    have h1 : extractSection s true (.ok "") =
        ({ s with output_text := some "" }, true, none) := by
      simp [extractSection, hb]
    have hemp : ("" : String).isEmpty = true := rfl
    have hshow : resultsShown { s with output_text := some "" } = false := by
      simp [resultsShown, hemp]
    rw [h1]
    exact ⟨rfl, hshow, by simp [downloadArtifact, hshow]⟩
  · intro t h1 h2 himg hml hpn
    have hne : t.isEmpty = false := by
      cases he : t.isEmpty
      · rfl
      · exact absurd ((String.isEmpty_iff t).mp he) h2
    have hr : resultsShown s = true := by
      simp [resultsShown, himg, hml, h1, hne]
    refine ⟨hr, ?_⟩
    cases hp : s.page_num with
    | none => simp [hp] at hpn
    | some n => simp [downloadArtifact, h1, hp, hr]
  · intro conv sel; cases conv <;> rfl
  · intro e c; unfold extractSection; split <;> rfl

/-- Witness for C10: the empty-extraction branch at `sessionLoadedA`
and the non-empty branch at `sessionExtracted`. -/
theorem C10_witness :
    resultsShown (extractSection sessionLoadedA true (.ok "")).1 = false ∧
    (resultsShown sessionExtracted = true ∧
      (downloadArtifact sessionExtracted).isSome = true) :=
  ⟨((C10_result_visibility sessionLoadedA).1 (by decide)).2.1,
   (C10_result_visibility sessionExtracted).2.1 "hello"
     (by decide) (by decide) (by decide) (by decide) (by decide)⟩
